import Mathlib

/-!
Verification of the Gaussian-splatting training core.

Shallow embedding of the camera model (`internal/cameras/cameras.py`), the
appearance-embedding renderer (`internal/renderers/gsplat_appearance_embedding_renderer.py`),
the training step (`internal/gaussian_splatting.py`) and the COLMAP data-parser
split (`internal/dataparsers/colmap_dataparser.py`), with theorems checking the
specification's statements against these definitions.

Real-valued tensor mathematics is embedded over `ℝ` (the source computes in
floating point; the embedding is the exact-real idealization), per-camera:
the batched tensor operations of the source act independently on each batch
index, and the batch level is modelled as a `Fin n`-indexed family.
-/

namespace GS

/-! ### Camera model (`internal/cameras/cameras.py`)

A single camera's raw inputs.  `R` is the 3×3 rotation, `T` the translation,
`fx`/`fy` the focal lengths, `width`/`height` the image dimensions.  The
remaining fields of the source dataclass (`cx`, `cy`, appearance embedding,
distortion, camera type) take no part in the derived-matrix claims. -/
structure CameraInput where
  R : Matrix (Fin 3) (Fin 3) ℝ
  T : Fin 3 → ℝ
  fx : ℝ
  fy : ℝ
  width : ℝ
  height : ℝ

/-- `Cameras._calculate_fov`: `fov_x = 2 * atan((width / 2) / fx)`. -/
noncomputable def fovX (c : CameraInput) : ℝ :=
  2 * Real.arctan ((c.width / 2) / c.fx)

/-- `Cameras._calculate_fov`: `fov_y = 2 * atan((height / 2) / fy)`. -/
noncomputable def fovY (c : CameraInput) : ℝ :=
  2 * Real.arctan ((c.height / 2) / c.fy)

/-- `Cameras._calculate_w2c` before the transpose: zeros, then
`[:3, :3] = R`, `[:3, 3] = T`, `[3, 3] = 1`. -/
def buildW2C (c : CameraInput) : Matrix (Fin 4) (Fin 4) ℝ :=
  Matrix.of
    ![![c.R 0 0, c.R 0 1, c.R 0 2, c.T 0],
      ![c.R 1 0, c.R 1 1, c.R 1 2, c.T 1],
      ![c.R 2 0, c.R 2 1, c.R 2 2, c.T 2],
      ![0, 0, 0, 1]]

/-- `Cameras._calculate_w2c`: the stored matrix is the transpose. -/
def worldToCamera (c : CameraInput) : Matrix (Fin 4) (Fin 4) ℝ :=
  Matrix.transpose (buildW2C c)

/-- `znear = 0.01` in `_calculate_ndc_projection_matrix`. -/
def znear : ℝ := 0.01

/-- `zfar = 100.0` in `_calculate_ndc_projection_matrix`. -/
def zfar : ℝ := 100.0

/-- `z_sign = 1.0` in `_calculate_ndc_projection_matrix`. -/
def zSign : ℝ := 1.0

/-- `tanHalfFovX = tan(fov_x / 2)`. -/
noncomputable def tanHalfFovX (c : CameraInput) : ℝ := Real.tan (fovX c / 2)

/-- `tanHalfFovY = tan(fov_y / 2)`. -/
noncomputable def tanHalfFovY (c : CameraInput) : ℝ := Real.tan (fovY c / 2)

/-- `top = tanHalfFovY * znear`. -/
noncomputable def projTop (c : CameraInput) : ℝ := tanHalfFovY c * znear

/-- `bottom = -top`. -/
noncomputable def projBottom (c : CameraInput) : ℝ := -projTop c

/-- `right = tanHalfFovX * znear`. -/
noncomputable def projRight (c : CameraInput) : ℝ := tanHalfFovX c * znear

/-- `left = -right`. -/
noncomputable def projLeft (c : CameraInput) : ℝ := -projRight c

/-- The matrix `P` assembled entry by entry in `_calculate_ndc_projection_matrix`
(all entries not assigned stay zero). -/
noncomputable def projP (c : CameraInput) : Matrix (Fin 4) (Fin 4) ℝ :=
  Matrix.of
    ![![2 * znear / (projRight c - projLeft c), 0,
        (projRight c + projLeft c) / (projRight c - projLeft c), 0],
      ![0, 2 * znear / (projTop c - projBottom c),
        (projTop c + projBottom c) / (projTop c - projBottom c), 0],
      ![0, 0, zSign * zfar / (zfar - znear), -(zfar * znear) / (zfar - znear)],
      ![0, 0, zSign, 0]]

/-- `self.projection = torch.transpose(P, 1, 2)`. -/
noncomputable def projection (c : CameraInput) : Matrix (Fin 4) (Fin 4) ℝ :=
  Matrix.transpose (projP c)

/-- `self.full_projection = self.world_to_camera.bmm(self.projection)`:
`bmm` is the per-batch-index matrix product, left operand first. -/
noncomputable def fullProjection (c : CameraInput) : Matrix (Fin 4) (Fin 4) ℝ :=
  worldToCamera c * projection c

/-- `Cameras._calculate_camera_center`:
`torch.linalg.inv(self.world_to_camera)[:, 3, :3]` — row 3, columns 0..2 of
the general 4×4 inverse of the stored matrix. -/
noncomputable def cameraCenter (c : CameraInput) : Fin 3 → ℝ :=
  fun j => (worldToCamera c)⁻¹ 3 j.castSucc

/-- A camera batch: the parallel arrays of the source `Cameras` dataclass,
as a `Fin n`-indexed family of per-camera inputs. -/
structure CameraBatch (n : ℕ) where
  cam : Fin n → CameraInput

/-- Batched stored world-to-camera matrices (batch ops act per index). -/
def worldToCameraB {n : ℕ} (b : CameraBatch n) (i : Fin n) :
    Matrix (Fin 4) (Fin 4) ℝ :=
  worldToCamera (b.cam i)

/-- Batched stored projection matrices. -/
noncomputable def projectionB {n : ℕ} (b : CameraBatch n) (i : Fin n) :
    Matrix (Fin 4) (Fin 4) ℝ :=
  projection (b.cam i)

/-- Batched combined matrices: `torch.bmm` multiplies the two stacks
batch-index-wise, left stack on the left. -/
noncomputable def fullProjectionB {n : ℕ} (b : CameraBatch n) (i : Fin n) :
    Matrix (Fin 4) (Fin 4) ℝ :=
  worldToCameraB b i * projectionB b i

/-- Modelled from the spec: the focal-length reconstruction
`focal = (dimension / 2) / tan(fov / 2)` used by the spec's field-of-view
round-trip property (the reconstruction itself is not a function of the
repository's code). -/
noncomputable def specFocalFromFov (fov dim : ℝ) : ℝ :=
  (dim / 2) / Real.tan (fov / 2)

/-- C3 theorem. -/
theorem fov_roundtrip (c : CameraInput) (hfx : 0 < c.fx) (hw : 0 < c.width)
    (hfy : 0 < c.fy) (hh : 0 < c.height) :
    specFocalFromFov (fovX c) c.width = c.fx ∧
    specFocalFromFov (fovY c) c.height = c.fy := by
  constructor
  · unfold specFocalFromFov fovX
    rw [show 2 * Real.arctan ((c.width / 2) / c.fx) / 2
          = Real.arctan ((c.width / 2) / c.fx) from by ring,
        Real.tan_arctan]
    field_simp
    ring
  · unfold specFocalFromFov fovY
    rw [show 2 * Real.arctan ((c.height / 2) / c.fy) / 2
          = Real.arctan ((c.height / 2) / c.fy) from by ring,
        Real.tan_arctan]
    field_simp
    ring

/-- A concrete camera for the C3 witness. -/
def exCam3 : CameraInput :=
  ⟨1, ![0, 0, 0], 1, 2, 2, 4⟩

/-- C3 witness. -/
theorem fov_roundtrip_witness :
    specFocalFromFov (fovX exCam3) exCam3.width = exCam3.fx ∧
    specFocalFromFov (fovY exCam3) exCam3.height = exCam3.fy :=
  fov_roundtrip exCam3 (by norm_num [exCam3]) (by norm_num [exCam3])
    (by norm_num [exCam3]) (by norm_num [exCam3])

/-- A concrete camera for the C1 non-commutativity part: identity rotation,
translation `(1, 0, 0)`, `fx = fy = 1`, `width = height = 2`. -/
def exCam1 : CameraInput :=
  ⟨1, ![1, 0, 0], 1, 1, 2, 2⟩

/-- For the concrete camera, `tan(fov_x / 2) = tan(atan 1) = 1`. -/
theorem tanHalfFovX_exCam1 : tanHalfFovX exCam1 = 1 := by
  unfold tanHalfFovX fovX exCam1
  rw [show (2 : ℝ) * Real.arctan ((2 / 2) / 1) / 2
        = Real.arctan ((2 / 2) / 1) from by ring, Real.tan_arctan]
  norm_num

/-- Combined matrix of the concrete camera, entry (3,0): equals `P[0][0] = 1`. -/
theorem fullProjection_exCam1_entry : fullProjection exCam1 3 0 = 1 := by
  simp only [fullProjection, Matrix.mul_apply, Fin.sum_univ_four, worldToCamera,
    projection, Matrix.transpose_apply, buildW2C, projP, Matrix.of_apply,
    projRight, projLeft, tanHalfFovX_exCam1]
  norm_num [exCam1, znear, Matrix.one_apply]

/-- Reverse product of the concrete camera, entry (3,0): equals `0`. -/
theorem revProjection_exCam1_entry :
    (projection exCam1 * worldToCamera exCam1) 3 0 = 0 := by
  simp only [Matrix.mul_apply, Fin.sum_univ_four, worldToCamera,
    projection, Matrix.transpose_apply, buildW2C, projP, Matrix.of_apply]
  norm_num [exCam1, znear, zfar, zSign, Matrix.one_apply]
  decide

/-- C1 theorem. -/
theorem full_projection_is_w2c_mul_projection :
    (∀ (n : ℕ) (b : CameraBatch n) (i : Fin n),
       fullProjectionB b i = worldToCameraB b i * projectionB b i) ∧
    fullProjection exCam1 ≠ projection exCam1 * worldToCamera exCam1 := by
  refine ⟨fun n b i => rfl, fun h => ?_⟩
  have h30 := congrFun (congrFun h 3) 0
  rw [fullProjection_exCam1_entry, revProjection_exCam1_entry] at h30
  exact one_ne_zero h30

/-- C1 witness: the first conjunct applied to a concrete singleton batch. -/
theorem full_projection_order_witness :
    fullProjectionB ⟨fun _ => exCam1⟩ (0 : Fin 1)
      = worldToCameraB ⟨fun _ => exCam1⟩ (0 : Fin 1)
        * projectionB ⟨fun _ => exCam1⟩ (0 : Fin 1) :=
  full_projection_is_w2c_mul_projection.1 1 ⟨fun _ => exCam1⟩ (0 : Fin 1)

/-- Modelled from the spec's words for C2: "building world-to-camera by placing
R in the top-left 3x3, T in the top-right column, bottom row [0,0,0,1], then
transposing". -/
def specStoredW2C (R : Matrix (Fin 3) (Fin 3) ℝ) (T : Fin 3 → ℝ) :
    Matrix (Fin 4) (Fin 4) ℝ :=
  Matrix.transpose (Matrix.of fun i j : Fin 4 =>
    if hi : (i : ℕ) < 3 then
      if hj : (j : ℕ) < 3 then R ⟨i, hi⟩ ⟨j, hj⟩ else T ⟨i, hi⟩
    else if (j : ℕ) < 3 then 0 else 1)

/-- The stored matrix of the source construction is the spec's construction. -/
theorem worldToCamera_eq_spec (c : CameraInput) :
    worldToCamera c = specStoredW2C c.R c.T := by
  ext i j
  fin_cases i <;> fin_cases j <;> rfl

/-- C2 theorem. -/
theorem camera_center_is_inverse_translation_row (c : CameraInput) :
    cameraCenter c = fun j => (specStoredW2C c.R c.T)⁻¹ 3 j.castSucc := by
  funext j
  unfold cameraCenter
  rw [worldToCamera_eq_spec]

/-- A concrete camera for the C2 witness. -/
def exCam2 : CameraInput :=
  ⟨1, ![5, 6, 7], 2, 3, 640, 480⟩

/-- C2 witness: the theorem applied to a concrete camera. -/
theorem camera_center_witness :
    cameraCenter exCam2 = fun j => (specStoredW2C exCam2.R exCam2.T)⁻¹ 3 j.castSucc :=
  camera_center_is_inverse_translation_row exCam2

/-! ### Shape semantics of `Cameras.__post_init__` (C4)

`__post_init__` performs no validation of its own: it immediately runs
`_calculate_fov`, `_calculate_w2c`, `_calculate_ndc_projection_matrix` and
`_calculate_camera_center` in that order.  Shape errors can therefore only
arise from the individual torch operations, each governed by torch's
broadcasting rules (two 1-D lengths are compatible iff they are equal or one
of them is 1).  The model below tracks the batch lengths of the parallel
arrays through those operations, in source order, and reports which
operation first rejects its operands. -/

/-- The torch operation inside `__post_init__` at which a shape mismatch is
first detected. -/
inductive ShapeStage where
  /-- `(self.width / 2) / self.fx` in `_calculate_fov`. -/
  | fovXDiv
  /-- `(self.height / 2) / self.fy` in `_calculate_fov`. -/
  | fovYDiv
  /-- `self.world_to_camera[:, :3, 3] = self.T` in `_calculate_w2c`. -/
  | w2cAssignT
  /-- `P[:, 0, 0] = ...` in `_calculate_ndc_projection_matrix` (the target
  batch length comes from `fov_y`, the source from `fov_x`). -/
  | projAssign
  /-- `self.world_to_camera.bmm(self.projection)` (`bmm` requires equal
  batch sizes). -/
  | bmmBatch
deriving DecidableEq

/-- Result length of broadcasting two 1-D lengths that are compatible
(`a = b`, or the length-1 operand stretches to the other). -/
def blen (a b : ℕ) : ℕ :=
  if a = b then a else if a = 1 then b else a

/-- Torch broadcast compatibility of two 1-D lengths. -/
def bcompat (a b : ℕ) : Prop :=
  a = b ∨ a = 1 ∨ b = 1

/-- Shape-level evaluation of `Cameras.__post_init__` on the batch lengths of
`R` (`nR`, leading dimension of the `[n,3,3]` array), `T` (`nT`, of `[n,3]`),
`fx`, `fy`, `width`, `height`.  Each guard is the torch shape rule of the
operation named by the stage, checked in the order the source executes them:
fov division for x, fov division for y, the `T` assignment into the
`[nR, 4, 4]` world-to-camera array, the assignments of `fov_x`-length arrays
into the `[n_fovy, 4, 4]` projection array, and the final `bmm`. -/
def postInitShapes (nR nT nfx nfy nw nh : ℕ) : Except ShapeStage Unit :=
  if ¬ (nw = nfx ∨ nw = 1 ∨ nfx = 1) then Except.error ShapeStage.fovXDiv
  else if ¬ (nh = nfy ∨ nh = 1 ∨ nfy = 1) then Except.error ShapeStage.fovYDiv
  else if ¬ (nT = nR ∨ nT = 1) then Except.error ShapeStage.w2cAssignT
  else if ¬ (blen nw nfx = blen nh nfy ∨ blen nw nfx = 1) then
    Except.error ShapeStage.projAssign
  else if ¬ nR = blen nh nfy then Except.error ShapeStage.bmmBatch
  else Except.ok ()

/-- C4 counterexample: a batch with mismatched array lengths (`R` has leading
dimension 2 while `fx` and `fy` have length 1, and `T` has leading dimension
1) constructs successfully — the length-1 arrays are silently broadcast and
no dimension-mismatch error is ever raised. -/
theorem post_init_mismatch_broadcasts :
    postInitShapes 2 1 1 1 2 2 = Except.ok () ∧ (1 : ℕ) ≠ 2 :=
  ⟨rfl, by decide⟩

/-- C4 theorem (amended): construction succeeds on mismatched batches exactly
when every mismatch is broadcastable and the broadcast batch lengths agree;
a non-broadcastable mismatch is reported by the matrix operation that first
consumes it (here: by the world-to-camera assignment, after the fov math has
already run), never by an up-front check. -/
theorem post_init_shape_check :
    (∀ nR nT nfx nfy nw nh : ℕ,
       postInitShapes nR nT nfx nfy nw nh = Except.ok () ↔
         (bcompat nw nfx ∧ bcompat nh nfy ∧ (nT = nR ∨ nT = 1) ∧
          (blen nw nfx = blen nh nfy ∨ blen nw nfx = 1) ∧ nR = blen nh nfy)) ∧
    postInitShapes 2 3 2 2 2 2 = Except.error ShapeStage.w2cAssignT := by
  constructor
  · intro nR nT nfx nfy nw nh
    unfold postInitShapes bcompat
    split_ifs <;> simp_all
  · rfl

/-- C4 theorem witness: matched lengths construct successfully. -/
theorem post_init_shape_check_witness :
    postInitShapes 3 3 3 3 3 3 = Except.ok () :=
  (post_init_shape_check.1 3 3 3 3 3 3).mpr (by simp [bcompat, blen])

/-! ### Masked loss in `GaussianSplatting.training_step` (C8)

`gt_image[masked_pixels] = image.detach()[masked_pixels]` followed by
`l1_loss = torch.abs(outputs["render"] - gt_image).mean()`.  Images are
modelled as `Fin n`-indexed families of exact rationals (`n` ranges over all
pixel/channel positions); `detach` only affects autograd, not values. -/

/-- The ground-truth image after the masked-pixel substitution. -/
def maskedGt (n : ℕ) (render gt : Fin n → ℚ) (mask : Fin n → Bool) :
    Fin n → ℚ :=
  fun i => if mask i then render i else gt i

/-- `torch.abs(a - b).mean()`. -/
def l1Loss (n : ℕ) (a b : Fin n → ℚ) : ℚ :=
  (∑ i, |a i - b i|) / n

/-- The L1 term of the training loss, evaluated on the substituted
ground truth. -/
def trainingL1 (n : ℕ) (render gt : Fin n → ℚ) (mask : Fin n → Bool) : ℚ :=
  l1Loss n render (maskedGt n render gt mask)

/-- C8 theorem. -/
theorem masked_pixels_excluded (n : ℕ) (render gt : Fin n → ℚ)
    (mask : Fin n → Bool) :
    (∀ i, mask i = true → maskedGt n render gt mask i = render i) ∧
    (∀ i, mask i = false → maskedGt n render gt mask i = gt i) ∧
    ((∀ i, mask i = true) → trainingL1 n render gt mask = 0) := by
  refine ⟨fun i h => by simp [maskedGt, h], fun i h => by simp [maskedGt, h],
    fun h => ?_⟩
  unfold trainingL1 l1Loss maskedGt
  have hz : ∀ i : Fin n, |render i - if mask i then render i else gt i| = 0 := by
    intro i
    simp [h i]
  simp [hz]

/-- C8 witness: a fully masked 2-pixel image with nonzero rendered content
and zero ground truth has zero L1 loss. -/
theorem masked_pixels_excluded_witness :
    trainingL1 2 (fun i => if i = 0 then 3 else 7) (fun _ => 0)
      (fun _ => true) = 0 :=
  (masked_pixels_excluded 2 (fun i => if i = 0 then 3 else 7) (fun _ => 0)
    (fun _ => true)).2.2 (fun _ => rfl)

/-! ### COLMAP dataparser train/validation split (C10)

`ColmapDataParser.get_outputs`: when `eval_step > 1`, the loop over
`range(len(image_name_list))` appends `i` to the validation indices when
`i % eval_step == 0` and to the training indices otherwise (so each list is
the in-order filter of `range n`); when `eval_step <= 1`, training indices
are all of `range n` and validation indices are `[0]`. -/

/-- The `(training_set_indices, validation_set_indices)` pair. -/
def buildSplitIndices (evalStep : ℤ) (n : ℕ) : List ℕ × List ℕ :=
  if 1 < evalStep then
    ((List.range n).filter (fun i => decide (¬ i % evalStep.toNat = 0)),
     (List.range n).filter (fun i => decide (i % evalStep.toNat = 0)))
  else
    (List.range n, [0])

/-- C10 theorem. -/
theorem split_indices_spec (evalStep : ℤ) (n : ℕ) :
    (evalStep ≤ 1 →
      (buildSplitIndices evalStep n).1 = List.range n ∧
      (buildSplitIndices evalStep n).2 = [0] ∧
      (0 < n → 0 ∈ (buildSplitIndices evalStep n).1 ∧
        0 ∈ (buildSplitIndices evalStep n).2)) ∧
    (1 < evalStep →
      (∀ i : ℕ,
        (i ∈ (buildSplitIndices evalStep n).2 ↔ i < n ∧ i % evalStep.toNat = 0) ∧
        (i ∈ (buildSplitIndices evalStep n).1 ↔ i < n ∧ ¬ i % evalStep.toNat = 0)) ∧
      (∀ i : ℕ, ¬ (i ∈ (buildSplitIndices evalStep n).1 ∧
                   i ∈ (buildSplitIndices evalStep n).2)) ∧
      (∀ i : ℕ, i < n →
        i ∈ (buildSplitIndices evalStep n).1 ∨
        i ∈ (buildSplitIndices evalStep n).2)) := by
  constructor
  · intro h
    have hn : ¬ 1 < evalStep := not_lt.mpr h
    refine ⟨by simp [buildSplitIndices, hn], by simp [buildSplitIndices, hn],
      fun hpos => ⟨?_, ?_⟩⟩
    · simp [buildSplitIndices, hn, List.mem_range, hpos]
    · simp [buildSplitIndices, hn]
  · intro h
    have hmem : ∀ i : ℕ,
        (i ∈ (buildSplitIndices evalStep n).2 ↔ i < n ∧ i % evalStep.toNat = 0) ∧
        (i ∈ (buildSplitIndices evalStep n).1 ↔ i < n ∧ ¬ i % evalStep.toNat = 0) := by
      intro i
      constructor <;>
        simp [buildSplitIndices, h, List.mem_filter, List.mem_range]
    refine ⟨hmem, fun i hi => ?_, fun i hi => ?_⟩
    · rw [(hmem i).2, (hmem i).1] at hi
      exact hi.1.2 hi.2.2
    · by_cases hz : i % evalStep.toNat = 0
      · exact Or.inr ((hmem i).1.mpr ⟨hi, hz⟩)
      · exact Or.inl ((hmem i).2.mpr ⟨hi, hz⟩)

/-- C10 witness: with `eval_step = 2` and 3 images, image 1 is a training
image and image 2 a validation image; with `eval_step = 1` and 3 images, the
training set is all images and the validation set is image 0. -/
theorem split_indices_spec_witness :
    (1 : ℕ) ∈ (buildSplitIndices 2 3).1 ∧ (2 : ℕ) ∈ (buildSplitIndices 2 3).2 ∧
    (buildSplitIndices 1 3).1 = List.range 3 ∧ (buildSplitIndices 1 3).2 = [0] :=
  ⟨(((split_indices_spec 2 3).2 (by norm_num)).1 1).2.mpr (by decide),
   (((split_indices_spec 2 3).2 (by norm_num)).1 2).1.mpr (by decide),
   ((split_indices_spec 1 3).1 (by norm_num)).1,
   ((split_indices_spec 1 3).1 (by norm_num)).2.1⟩

/-! ### Appearance-embedding renderer: warm-up color path (C5)

`GSplatAppearanceEmbeddingRendererModule.get_rgbs` and `training_forward`
(`internal/renderers/gsplat_appearance_embedding_renderer.py`).  Primitive
colors are `Fin n`-indexed rows of 3 rational channels.  The spherical-
harmonics evaluation and the appearance network are external collaborators;
their outputs enter as function parameters: `shWarm` is the output of
`self.sh(pc, dirs, visibility_filter)` used by the warm-up branch, `shVis`
the output of `self.selective_sh` on the visible primitives, `modelOut` the
(sigmoid, in `[0,1]`) output of `self.model`. -/

/-- `get_rgbs`: the warm-up branch returns `clamp(sh + 0.5, min=0)`; the
normal branch builds a zero array and writes
`clamp((selective_sh + 0.5) + (model * 2 - 1), min=0, max=1)` at the visible
rows only. -/
def getRgbs (warmUp : Bool) (n : ℕ)
    (shWarm shVis modelOut : Fin n → Fin 3 → ℚ)
    (visible : Fin n → Bool) : Fin n → Fin 3 → ℚ :=
  if warmUp then
    fun i ch => max (shWarm i ch + 1 / 2) 0
  else
    fun i ch =>
      if visible i then
        min (max ((shVis i ch + 1 / 2) + (modelOut i ch * 2 - 1)) 0) 1
      else 0

/-- `training_forward`: forwards with `warm_up = step < config.optimization.warm_up`. -/
def trainingForwardGetRgbs (warmUpThreshold step : ℕ) (n : ℕ)
    (shWarm shVis modelOut : Fin n → Fin 3 → ℚ)
    (visible : Fin n → Bool) : Fin n → Fin 3 → ℚ :=
  getRgbs (decide (step < warmUpThreshold)) n shWarm shVis modelOut visible

/-- C5 theorem. -/
theorem warm_up_boundary (warmUpThreshold : ℕ) (n : ℕ)
    (shWarm shVis modelOut modelOut' : Fin n → Fin 3 → ℚ)
    (visible : Fin n → Bool) (hwu : 1 ≤ warmUpThreshold) :
    (trainingForwardGetRgbs warmUpThreshold (warmUpThreshold - 1) n
        shWarm shVis modelOut visible
      = trainingForwardGetRgbs warmUpThreshold (warmUpThreshold - 1) n
        shWarm shVis modelOut' visible ∧
     trainingForwardGetRgbs warmUpThreshold (warmUpThreshold - 1) n
        shWarm shVis modelOut visible
      = fun i ch => max (shWarm i ch + 1 / 2) 0) ∧
    (∀ step, warmUpThreshold ≤ step → ∀ (i : Fin n) (ch : Fin 3),
      visible i = true →
      trainingForwardGetRgbs warmUpThreshold step n
          shWarm shVis modelOut visible i ch
        = min (max ((shVis i ch + 1 / 2) + (modelOut i ch * 2 - 1)) 0) 1) := by
  have hlt : warmUpThreshold - 1 < warmUpThreshold := Nat.sub_lt hwu one_pos
  refine ⟨⟨?_, ?_⟩, ?_⟩
  · simp [trainingForwardGetRgbs, getRgbs, hlt]
  · simp [trainingForwardGetRgbs, getRgbs, hlt]
  · intro step hstep i ch hvis
    have hge : ¬ step < warmUpThreshold := not_lt.mpr hstep
    simp [trainingForwardGetRgbs, getRgbs, hge, hvis]

/-- C5 witness: at the source defaults (`warm_up = 4000`), step 3999 ignores
the appearance model and step 4000 applies it to a visible primitive. -/
theorem warm_up_boundary_witness :
    (trainingForwardGetRgbs 4000 3999 1 (fun _ _ => 0) (fun _ _ => 0)
        (fun _ _ => 1) (fun _ => true)
      = trainingForwardGetRgbs 4000 3999 1 (fun _ _ => 0) (fun _ _ => 0)
        (fun _ _ => 0) (fun _ => true)) ∧
    trainingForwardGetRgbs 4000 4000 1 (fun _ _ => 0) (fun _ _ => 0)
        (fun _ _ => 1) (fun _ => true) 0 0
      = min (max ((0 + 1 / 2) + (1 * 2 - 1)) 0) 1 :=
  ⟨(warm_up_boundary 4000 1 (fun _ _ => 0) (fun _ _ => 0) (fun _ _ => 1)
      (fun _ _ => 0) (fun _ => true) (by norm_num)).1.1,
   (warm_up_boundary 4000 1 (fun _ _ => 0) (fun _ _ => 0) (fun _ _ => 1)
      (fun _ _ => 0) (fun _ => true) (by norm_num)).2 4000 le_rfl 0 0 rfl⟩

/-! ### Appearance-embedding renderer: table sizing (C6)

`GSplatAppearanceEmbeddingRendererModule.setup` and `load_state_dict`.
`appearance_group_ids` is an optional dictionary whose values carry the
appearance identifier in their first component; the model is modelled by the
list of those first components. -/

/-- The `max_input_id` loop of `setup`: starts at 0 and replaces the running
value whenever a larger identifier is seen; `none` (no appearance groups)
leaves 0. -/
def maxInputId (groupIds : Option (List ℤ)) : ℤ :=
  match groupIds with
  | none => 0
  | some ids => ids.foldl (fun acc i => if acc < i then i else acc) 0

/-- Outcome of `setup`/`load_state_dict`: the configured table size
(`config.model.n_appearances`) and the row count the embedding table is
allocated with (`nn.Embedding(num_embeddings=...)` inside `_setup_model`). -/
structure AppearanceSetupResult where
  n_appearances : ℤ
  embeddingRows : ℤ

/-- `setup`: when the configured size is `≤ 0` it is replaced by
`max_input_id + 1` before `_setup_model` allocates the table; the allocation
uses the (possibly replaced) size. -/
def setupAppearance (configured : ℤ) (groupIds : Option (List ℤ)) :
    AppearanceSetupResult :=
  let n := if configured ≤ 0 then maxInputId groupIds + 1 else configured
  ⟨n, n⟩

/-- `load_state_dict`: the configured size is overwritten by the row count of
the saved embedding table (`state_dict["model.embedding.weight"].shape[0]`)
and the model is re-allocated with it; the previously configured value is
ignored. -/
def loadAppearanceStateDict (configured savedRows : ℤ) :
    AppearanceSetupResult :=
  ⟨savedRows, savedRows⟩

/-- The `if acc < i then i else acc` accumulator is `max`. -/
theorem maxInputId_foldl_max (ids : List ℤ) (a : ℤ) :
    ids.foldl (fun acc i => if acc < i then i else acc) a = ids.foldl max a := by
  induction ids generalizing a with
  | nil => rfl
  | cons x xs ih =>
    simp only [List.foldl_cons, ih]
    congr 1
    rcases le_or_lt a x with h | h
    · rw [max_eq_right h]
      split_ifs with h' <;> omega
    · rw [max_eq_left h.le, if_neg (not_lt.mpr h.le)]

/-- C6 theorem. -/
theorem appearance_table_sizing (configured : ℤ) (groupIds : Option (List ℤ))
    (savedRows : ℤ) (hc : configured ≤ 0) :
    ((setupAppearance configured groupIds).n_appearances
        = maxInputId groupIds + 1 ∧
     (setupAppearance configured groupIds).embeddingRows
        = maxInputId groupIds + 1) ∧
    maxInputId none = 0 ∧
    (∀ ids : List ℤ, maxInputId (some ids) = ids.foldl max 0) ∧
    ((loadAppearanceStateDict configured savedRows).n_appearances = savedRows ∧
     (loadAppearanceStateDict configured savedRows).embeddingRows = savedRows) := by
  refine ⟨⟨?_, ?_⟩, rfl, fun ids => maxInputId_foldl_max ids 0, rfl, rfl⟩
  · simp [setupAppearance, hc]
  · simp [setupAppearance, hc]

/-- C6 witness: configured size `-1` with observed identifiers `[2, 0, 1]`
allocates a table of `2 + 1 = 3` rows; a restore with a 7-row saved table
yields size 7 regardless of the configured `-1`. -/
theorem appearance_table_sizing_witness :
    (setupAppearance (-1) (some [2, 0, 1])).embeddingRows
      = maxInputId (some [2, 0, 1]) + 1 ∧
    (loadAppearanceStateDict (-1) 7).embeddingRows = 7 :=
  ⟨(appearance_table_sizing (-1) (some [2, 0, 1]) 7 (by norm_num)).1.2,
   (appearance_table_sizing (-1) (some [2, 0, 1]) 7 (by norm_num)).2.2.2.2⟩

/-! ### Appearance-embedding renderer: learning-rate schedules (C7)

`GSplatAppearanceEmbeddingRendererModule.training_setup` and
`_create_optimizer_and_scheduler`.  A `LambdaLR` scheduler yields
`lr(t) = lr_init * lr_lambda(t)`.  Real exponentiation is `Real.rpow`. -/

/-- The renderer's optimization configuration (`OptimizationConfig` fields
used by the schedules; source defaults `embedding_lr_init = 2e-3`,
`lr_init = 1e-3`, `lr_final_factor = 0.1`, `max_steps = 30000`,
`warm_up = 4000`). -/
structure RendererOptimizationConfig where
  embedding_lr_init : ℝ
  lr_init : ℝ
  lr_final_factor : ℝ
  max_steps : ℕ
  warm_up : ℕ

/-- `lr_lambda` of `_create_optimizer_and_scheduler`:
`lr_final_factor ** min(max(iter - warm_up, 0) / max_steps, 1)`
(the subtraction is over ℤ-valued Python ints, so it is real subtraction
clamped by the outer `max`). -/
noncomputable def lrLambda (ffinal : ℝ) (maxSteps warmUp t : ℕ) : ℝ :=
  ffinal ^ (min (max ((t : ℝ) - (warmUp : ℝ)) 0 / (maxSteps : ℝ)) 1)

/-- The learning rate the scheduler sets at step `t`. -/
noncomputable def scheduledLr (lrInit ffinal : ℝ) (maxSteps warmUp t : ℕ) : ℝ :=
  lrInit * lrLambda ffinal maxSteps warmUp t

/-- `training_setup`: the embedding scheduler (initial rate
`embedding_lr_init`) and the network scheduler (initial rate `lr_init`),
both built with `lr_final_factor`, `max_steps` and `warm_up`. -/
noncomputable def trainingSetupSchedules (cfg : RendererOptimizationConfig) :
    (ℕ → ℝ) × (ℕ → ℝ) :=
  (fun t => scheduledLr cfg.embedding_lr_init cfg.lr_final_factor
      cfg.max_steps cfg.warm_up t,
   fun t => scheduledLr cfg.lr_init cfg.lr_final_factor
      cfg.max_steps cfg.warm_up t)

/-- Modelled from the spec: `rate(t) = lr_init · final_factor^(clamp((t −
warmup)/max_steps, 0, 1))`, with `clamp(x, 0, 1) = min (max x 0) 1`. -/
noncomputable def specRate (lrInit ffinal : ℝ) (maxSteps warmUp t : ℕ) : ℝ :=
  lrInit * ffinal ^ (min (max (((t : ℝ) - (warmUp : ℝ)) / (maxSteps : ℝ)) 0) 1)

/-- The code's exponent equals the spec's clamped exponent when
`max_steps > 0`. -/
theorem lrLambda_exponent_eq (maxSteps warmUp t : ℕ) (hm : 0 < maxSteps) :
    min (max ((t : ℝ) - (warmUp : ℝ)) 0 / (maxSteps : ℝ)) 1
      = min (max (((t : ℝ) - (warmUp : ℝ)) / (maxSteps : ℝ)) 0) 1 := by
  have hm' : (0 : ℝ) ≤ (maxSteps : ℝ) := by positivity
  rw [← max_div_div_right hm' ((t : ℝ) - (warmUp : ℝ)) 0, zero_div]

/-- Before (or at) the warm-up step the exponent is 0. -/
theorem lrLambda_of_le (ffinal : ℝ) (maxSteps warmUp t : ℕ) (h : t ≤ warmUp) :
    lrLambda ffinal maxSteps warmUp t = 1 := by
  unfold lrLambda
  have hsub : (t : ℝ) - (warmUp : ℝ) ≤ 0 := by
    have : (t : ℝ) ≤ (warmUp : ℝ) := by exact_mod_cast h
    linarith
  rw [max_eq_right hsub, zero_div, min_eq_left zero_le_one, Real.rpow_zero]

/-- From `warm_up + max_steps` on the exponent is 1. -/
theorem lrLambda_of_ge (ffinal : ℝ) (maxSteps warmUp t : ℕ)
    (hm : 0 < maxSteps) (h : warmUp + maxSteps ≤ t) :
    lrLambda ffinal maxSteps warmUp t = ffinal := by
  unfold lrLambda
  have hmr : (0 : ℝ) < (maxSteps : ℝ) := by exact_mod_cast hm
  have hsub : (maxSteps : ℝ) ≤ (t : ℝ) - (warmUp : ℝ) := by
    have : (warmUp : ℝ) + (maxSteps : ℝ) ≤ (t : ℝ) := by exact_mod_cast h
    linarith
  rw [max_eq_left (le_trans hmr.le hsub),
    min_eq_right ((one_le_div hmr).mpr hsub), Real.rpow_one]

/-- C7 theorem. -/
theorem appearance_lr_schedules (cfg : RendererOptimizationConfig) (t : ℕ)
    (hm : 0 < cfg.max_steps) :
    ((trainingSetupSchedules cfg).1 t
        = specRate cfg.embedding_lr_init cfg.lr_final_factor
            cfg.max_steps cfg.warm_up t ∧
     (trainingSetupSchedules cfg).2 t
        = specRate cfg.lr_init cfg.lr_final_factor
            cfg.max_steps cfg.warm_up t) ∧
    (t ≤ cfg.warm_up →
      (trainingSetupSchedules cfg).1 t = cfg.embedding_lr_init ∧
      (trainingSetupSchedules cfg).2 t = cfg.lr_init) ∧
    (cfg.warm_up + cfg.max_steps ≤ t →
      (trainingSetupSchedules cfg).1 t
          = cfg.embedding_lr_init * cfg.lr_final_factor ∧
      (trainingSetupSchedules cfg).2 t
          = cfg.lr_init * cfg.lr_final_factor) := by
  refine ⟨⟨?_, ?_⟩, fun h => ?_, fun h => ?_⟩
  · simp only [trainingSetupSchedules, scheduledLr, lrLambda, specRate,
      lrLambda_exponent_eq cfg.max_steps cfg.warm_up t hm]
  · simp only [trainingSetupSchedules, scheduledLr, lrLambda, specRate,
      lrLambda_exponent_eq cfg.max_steps cfg.warm_up t hm]
  · constructor <;>
      simp [trainingSetupSchedules, scheduledLr,
        lrLambda_of_le cfg.lr_final_factor cfg.max_steps cfg.warm_up t h]
  · constructor <;>
      simp [trainingSetupSchedules, scheduledLr,
        lrLambda_of_ge cfg.lr_final_factor cfg.max_steps cfg.warm_up t hm h]

/-- The source defaults of `OptimizationConfig`. -/
noncomputable def defaultRendererOptimizationConfig :
    RendererOptimizationConfig :=
  ⟨2e-3, 1e-3, 0.1, 30000, 4000⟩

/-- C7 witness: at the source defaults, both schedules sit at their initial
rates at step 0 and at the decayed floor at step 34000. -/
theorem appearance_lr_schedules_witness :
    ((trainingSetupSchedules defaultRendererOptimizationConfig).1 0
        = defaultRendererOptimizationConfig.embedding_lr_init ∧
     (trainingSetupSchedules defaultRendererOptimizationConfig).2 0
        = defaultRendererOptimizationConfig.lr_init) ∧
    (trainingSetupSchedules defaultRendererOptimizationConfig).1 34000
        = defaultRendererOptimizationConfig.embedding_lr_init
            * defaultRendererOptimizationConfig.lr_final_factor :=
  ⟨(appearance_lr_schedules defaultRendererOptimizationConfig 0
      (by norm_num [defaultRendererOptimizationConfig])).2.1
      (by norm_num [defaultRendererOptimizationConfig]),
   ((appearance_lr_schedules defaultRendererOptimizationConfig 34000
      (by norm_num [defaultRendererOptimizationConfig])).2.2
      (by norm_num [defaultRendererOptimizationConfig])).1⟩

/-! ### Density-control invocation and screen-radius threshold (C9)

`GaussianSplatting.training_step`, densification block: inside
`step < densify_until_iter`, grow/prune runs when
`step > densify_from_iter and step % densification_interval == 0`, with
`size_threshold = 20 if step > opacity_reset_interval else None`. -/

/-- The density-control thresholds of the gaussian optimization config. -/
structure GaussianOptimizationConfig where
  densify_from_iter : ℕ
  densify_until_iter : ℕ
  densification_interval : ℕ
  opacity_reset_interval : ℕ

/-- Whether (`some _`) and with which screen-radius threshold
(`some 20` / `none`) `densify_and_prune` is invoked at a step. -/
def densifyAndPruneCall (cfg : GaussianOptimizationConfig) (step : ℕ) :
    Option (Option ℕ) :=
  if step < cfg.densify_until_iter then
    if cfg.densify_from_iter < step ∧ step % cfg.densification_interval = 0 then
      some (if cfg.opacity_reset_interval < step then some 20 else none)
    else none
  else none

/-- A concrete config for the C9 counterexample:
`densify_from_iter = 500`, `densify_until_iter = 15000`,
`densification_interval = 100`, `opacity_reset_interval = 3000`. -/
def exGaussianCfg : GaussianOptimizationConfig :=
  ⟨500, 15000, 100, 3000⟩

/-- C9 counterexample: step 6000 is a densification step and is itself the
most recent opacity-reset boundary (`6000 = (6000 / 3000) * 3000`, so the
step has not "passed" it), yet the code invokes grow/prune with the
screen-radius threshold 20 — the code's condition is
`step > opacity_reset_interval`, not the claim's boundary condition. -/
theorem densify_threshold_counterexample :
    densifyAndPruneCall exGaussianCfg 6000 = some (some 20) ∧
    6000 % exGaussianCfg.opacity_reset_interval = 0 ∧
    ¬ (6000 / exGaussianCfg.opacity_reset_interval
        * exGaussianCfg.opacity_reset_interval < 6000) := by
  refine ⟨?_, by decide, by decide⟩
  simp [densifyAndPruneCall, exGaussianCfg]

/-- C9 theorem (amended): grow/prune is invoked exactly at steps with
`step < densify_until_iter`, `step > densify_from_iter` and
`step % densification_interval == 0`, and then carries the screen-radius
threshold 20 exactly when `step > opacity_reset_interval` and no threshold
otherwise. -/
theorem densify_size_threshold (cfg : GaussianOptimizationConfig) (step : ℕ) :
    ((densifyAndPruneCall cfg step).isSome = true ↔
      (step < cfg.densify_until_iter ∧ cfg.densify_from_iter < step ∧
       step % cfg.densification_interval = 0)) ∧
    (step < cfg.densify_until_iter → cfg.densify_from_iter < step →
      step % cfg.densification_interval = 0 →
      densifyAndPruneCall cfg step
        = some (if cfg.opacity_reset_interval < step then some 20 else none)) := by
  constructor
  · unfold densifyAndPruneCall
    split_ifs <;> simp_all
  · intro h1 h2 h3
    simp [densifyAndPruneCall, h1, h2, h3]

/-- C9 theorem witness: step 600 of the concrete config is a densification
step that has not passed `opacity_reset_interval = 3000`, so grow/prune runs
without a screen-radius threshold. -/
theorem densify_size_threshold_witness :
    densifyAndPruneCall exGaussianCfg 600 = some none := by
  have h := (densify_size_threshold exGaussianCfg 600).2
    (by norm_num [exGaussianCfg]) (by norm_num [exGaussianCfg])
    (by norm_num [exGaussianCfg])
  simpa [exGaussianCfg] using h

end GS
